import Mathlib

/-!
Verification of the healthdcat-converter pipeline core: a shallow embedding
of the validator, RDF generator, plugin registry, plugin loader and
orchestrator from `src/healthdcat_converter`, together with theorems
settling the specification's claims about them.

Python dictionaries are embedded as association lists with unique keys
(insertion order preserved, first-match lookup); dynamically typed scalar
values are a closed sum; fallible operations return `Option`/`Except`.
-/

namespace HealthDCAT

/-- A dynamically typed scalar value held in a record field.
Python `None` is `vNone`; floats are modelled by rationals (the code never
computes with them, it only inspects type and zero-ness/emptiness). -/
inductive Value where
  | vStr (s : String)
  | vInt (n : Int)
  | vFloat (q : Rat)
  | vBool (b : Bool)
  | vNone
  deriving DecidableEq, Repr

/-- A record: a Python dict from field name to value (association list,
insertion-ordered, keys unique in any dict the program builds). -/
abbrev Rec := List (String × Value)

/-- A row of the validator's input: either a dict-shaped record or some
non-dict Python object (whose content the code never inspects). -/
inductive Row where
  | dict (r : Rec)
  | nonDict
  deriving DecidableEq, Repr

/-- The validator's input: either a Python list of rows or some non-list
object (scalar, dict, ...). -/
inductive VInput where
  | records (rows : List Row)
  | nonList
  deriving DecidableEq, Repr

/-- Python `field in d` / `d[field]` on a dict: first-match lookup. -/
def pyLookup {α : Type} (r : List (String × α)) (field : String) : Option α :=
  match r with
  | [] => none
  | (k, v) :: rest => if k = field then some v else pyLookup rest field

/-- Python truthiness test `not row[field]` on a scalar value:
falsy values are `""`, `0`, `0.0`, `False` and `None`. -/
def pyFalsy : Value → Bool
  | .vStr s => s = ""
  | .vInt n => n = 0
  | .vFloat q => q = 0
  | .vBool b => b = false
  | .vNone => true

/-- The validator's result dictionary
`{"valid": ..., "errors": [...], "warnings": [...]}`. -/
structure VResult where
  valid : Bool
  errors : List String
  warnings : List String
  deriving DecidableEq, Repr

/-- Error message for a missing required field (validator.py line 56). -/
def missingMsg (idx : Nat) (field : String) : String :=
  "Row " ++ toString idx ++ " missing required field: " ++ field

/-- Error message for an empty required field (validator.py line 61). -/
def emptyMsg (idx : Nat) (field : String) : String :=
  "Row " ++ toString idx ++ " has empty value for required field: " ++ field

/-- Error message for a non-dict row (validator.py line 48). -/
def notDictMsg (idx : Nat) : String :=
  "Row " ++ toString idx ++ " is not a dictionary"

/-- Structural error message for non-list input (validator.py line 37). -/
def notListMsg : String := "Data must be a list of dictionaries"

/-- One iteration of the inner `for field in required_fields` loop of
`ValidatorPlugin.execute` (validator.py lines 52-62). -/
def stepField (allow_empty : Bool) (idx : Nat) (r : Rec) (res : VResult)
    (field : String) : VResult :=
  match pyLookup r field with
  | none =>
      { res with valid := false, errors := res.errors ++ [missingMsg idx field] }
  | some v =>
      if !allow_empty && pyFalsy v then
        { res with valid := false, errors := res.errors ++ [emptyMsg idx field] }
      else res

/-- One iteration of the outer `for idx, row in enumerate(data)` loop of
`ValidatorPlugin.execute` (validator.py lines 45-62). -/
def stepRow (allow_empty : Bool) (required_fields : List String)
    (res : VResult) (p : Nat × Row) : VResult :=
  match p.2 with
  | .nonDict =>
      { res with valid := false, errors := res.errors ++ [notDictMsg p.1] }
  | .dict r => required_fields.foldl (stepField allow_empty p.1 r) res

/-- `ValidatorPlugin.execute` (validator.py lines 14-64): structural check,
empty-dataset check, then the nested required-fields loop. -/
def validatorExecute (data : VInput) (required_fields : List String)
    (allow_empty : Bool) : VResult :=
  match data with
  | .nonList => { valid := false, errors := [notListMsg], warnings := [] }
  | .records rows =>
      if rows.length = 0 then
        { valid := true, errors := [], warnings := ["Dataset is empty"] }
      else
        rows.enum.foldl (stepRow allow_empty required_fields)
          { valid := true, errors := [], warnings := [] }

/-- Modelled from the spec ("one error per (record, missing-or-empty field)
pair"): the at-most-one error the validator reports for one (record, field)
pair — missing beats empty, and an empty value only counts when
`allow_empty` is false. -/
def pairError (allow_empty : Bool) (idx : Nat) (r : Rec) (field : String) :
    Option String :=
  match pyLookup r field with
  | none => some (missingMsg idx field)
  | some v =>
      if !allow_empty && pyFalsy v then some (emptyMsg idx field) else none

/-- The errors one positioned row contributes: a single structural error for
a non-dict row, else one error per missing-or-empty required field, in
required-field order. -/
def rowErrors (allow_empty : Bool) (required_fields : List String)
    (p : Nat × Row) : List String :=
  match p.2 with
  | .nonDict => [notDictMsg p.1]
  | .dict r => required_fields.filterMap (pairError allow_empty p.1 r)

/-- Modelled from the spec: validating records against required fields
collects one error per (record, missing-or-empty field) pair, in record
order. -/
def specValidationErrors (allow_empty : Bool) (required_fields : List String)
    (recs : List Rec) : List String :=
  recs.enum.flatMap
    (fun p => required_fields.filterMap (pairError allow_empty p.1 p.2))

/-! ## RDF generator (rdf_generator.py) -/

/-- Whitespace characters removed by Python `str.strip()`. -/
def isPySpace (c : Char) : Bool :=
  c = ' ' || c = '\t' || c = '\n' || c = '\r' || c = '\x0b' || c = '\x0c'

/-- Python `str.strip()` on a character list. -/
def pyStrip (l : List Char) : List Char :=
  ((l.dropWhile isPySpace).reverse.dropWhile isPySpace).reverse

/-- A non-empty all-digit character list. -/
def isDigitStr (l : List Char) : Bool := !l.isEmpty && l.all Char.isDigit

/-- Whether Python `int(s)` succeeds on a (stripped) string: an optional
sign followed by digits. (Digit-group underscores and non-ASCII digits are
not modelled; no claim exercises them.) -/
def pyIntParsable (l : List Char) : Bool :=
  match l with
  | [] => false
  | c :: rest => if c = '+' || c = '-' then isDigitStr rest else isDigitStr (c :: rest)

/-- Digits, possibly none. -/
def digitsOpt (l : List Char) : Bool := l.all Char.isDigit

/-- Split a character list on a separator character. -/
def splitOnChar (sep : Char) (l : List Char) : List (List Char) :=
  l.foldr
    (fun c acc =>
      match acc with
      | [] => [[c]]
      | cur :: rest => if c = sep then [] :: (cur :: rest) else (c :: cur) :: rest)
    [[]]

/-- A float mantissa: digits with at most one dot and at least one digit. -/
def mantissaOk (l : List Char) : Bool :=
  match splitOnChar '.' l with
  | [a] => isDigitStr a
  | [a, b] => digitsOpt a && digitsOpt b && (!a.isEmpty || !b.isEmpty)
  | _ => false

/-- An optionally signed non-empty digit string (a float exponent). -/
def signedDigits (l : List Char) : Bool :=
  match l with
  | [] => false
  | c :: rest => if c = '+' || c = '-' then isDigitStr rest else isDigitStr (c :: rest)

/-- Whether Python `float(s)` succeeds on a (stripped) string: optional
sign, then `inf`/`infinity`/`nan` (case-insensitive) or a mantissa with an
optional exponent. -/
def pyFloatParsable (l : List Char) : Bool :=
  let t := l.map Char.toLower
  let body :=
    match t with
    | [] => t
    | c :: rest => if c = '+' || c = '-' then rest else t
  if body = "inf".toList || body = "infinity".toList || body = "nan".toList then
    true
  else
    match splitOnChar 'e' body with
    | [m] => mantissaOk m
    | [m, e] => mantissaOk m && signedDigits e
    | _ => false

/-- The type-classification chain inside `RDFGeneratorPlugin._infer_datatype`
(rdf_generator.py lines 158-176), applied to a value already known to be
non-`None` and not the empty string: `bool` before `int` before `float`,
then string parsing. -/
def classifyValue (v : Value) : String :=
  match v with
  | .vBool _ => "boolean"
  | .vInt _ => "integer"
  | .vFloat _ => "decimal"
  | .vStr s =>
      let sv := pyStrip s.toList
      if pyIntParsable sv then "integer"
      else if pyFloatParsable sv then "decimal"
      else "string"
  | .vNone => "string"

/-- The generator's skip test on a column value (rdf_generator.py line 157,
negated): the value is `None` or the empty string. A missing key also
skips, since `row.get` returns `None` for it. -/
def pyEmptyish (v : Value) : Bool :=
  v = Value.vNone || v = Value.vStr ""

/-- `RDFGeneratorPlugin._infer_datatype` (rdf_generator.py lines 144-178):
scan rows in order, classify the first value that is neither `None` nor
`""`, defaulting to `"string"`. -/
def inferDatatype (data : List Rec) (column_name : String) : String :=
  match data with
  | [] => "string"
  | row :: rest =>
      match pyLookup row column_name with
      | none => inferDatatype rest column_name
      | some v =>
          if pyEmptyish v then inferDatatype rest column_name
          else classifyValue v

/-- An RDF term: a URI reference or a literal (the generator only builds
string and integer literals). -/
inductive Term where
  | uri (u : String)
  | litStr (s : String)
  | litNat (n : Nat)
  deriving DecidableEq, Repr

/-- An RDF statement. The generator's graph is modelled as the list of
statements in assertion order (serialization is the external collaborator). -/
abbrev Triple := Term × Term × Term

def rdfType : Term := Term.uri "http://www.w3.org/1999/02/22-rdf-syntax-ns#type"

def rdfsLabel : Term := Term.uri "http://www.w3.org/2000/01/rdf-schema#label"

def dcat (l : String) : Term := Term.uri ("http://www.w3.org/ns/dcat#" ++ l)

def dct (l : String) : Term := Term.uri ("http://purl.org/dc/terms/" ++ l)

def schemaOrg (l : String) : Term := Term.uri ("http://schema.org/" ++ l)

def csvw (l : String) : Term := Term.uri ("http://www.w3.org/ns/csvw#" ++ l)

def healthdcat (l : String) : Term :=
  Term.uri ("https://health.ec.europa.eu/healthdcat-ap/" ++ l)

/-- URI of the idx-th column resource (rdf_generator.py line 124). -/
def colUri (dataset_uri : String) (idx : Nat) : Term :=
  Term.uri (dataset_uri ++ "/schema/column/" ++ toString idx)

/-- `RDFGeneratorPlugin._add_dataset_metadata` (rdf_generator.py lines
83-107), for mapping-shaped record sets (every row a dict, so the
`isinstance(data[0], dict)` guard holds whenever the set is non-empty). -/
def addDatasetMetadata (dataset_uri : String) (data : List Rec) : List Triple :=
  let dataset := Term.uri dataset_uri
  [(dataset, rdfType, dcat "Dataset"),
   (dataset, dct "title", Term.litStr "Health Dataset"),
   (dataset, dct "description", Term.litStr "Dataset converted from CSV"),
   (dataset, healthdcat "hasHealthCategory", Term.litStr "general")]
  ++ (if data.length > 0 then
        [(dataset, schemaOrg "numberOfItems", Term.litNat data.length),
         (dataset, csvw "tableSchema", Term.uri (dataset_uri ++ "/schema"))]
      else [])

/-- `RDFGeneratorPlugin._add_table_schema` (rdf_generator.py lines 109-142):
columns are `list(data[0].keys())`, linked to the schema resource, then each
defined with name/title/label and an inferred datatype. -/
def addTableSchema (dataset_uri : String) (data : List Rec) : List Triple :=
  let schemaUri := Term.uri (dataset_uri ++ "/schema")
  let columns := (data.headD []).map Prod.fst
  (schemaUri, rdfType, csvw "TableSchema")
    :: (List.range columns.length).map
        (fun idx => (schemaUri, csvw "column", colUri dataset_uri idx))
    ++ columns.enum.flatMap (fun p =>
        [(colUri dataset_uri p.1, rdfType, csvw "Column"),
         (colUri dataset_uri p.1, csvw "name", Term.litStr p.2),
         (colUri dataset_uri p.1, csvw "title", Term.litStr p.2),
         (colUri dataset_uri p.1, rdfsLabel, Term.litStr p.2),
         (colUri dataset_uri p.1, csvw "datatype",
           Term.litStr (inferDatatype data p.2))])

/-- `RDFGeneratorPlugin.execute` (rdf_generator.py lines 44-81) for
mapping-shaped record sets (the shape the claims quantify over): dataset
metadata, then — when the set is non-empty — the table schema. The output
is the graph's assertion list; rendering it in a serialization format is
delegated to the external RDF library. -/
def rdfGeneratorExecute (data : List Rec) (dataset_uri : String) : List Triple :=
  addDatasetMetadata dataset_uri data
    ++ (if data.length > 0 then addTableSchema dataset_uri data else [])

/-- The ordered list of column names asserted via `csvw:name` literals. -/
def columnNameLits (ts : List Triple) : List String :=
  ts.filterMap (fun t =>
    match t with
    | (_, p, Term.litStr s) => if p = csvw "name" then some s else none
    | _ => none)

/-- The URI of the schema resource the generator emits for a dataset. -/
def schemaUriOf (u : String) : Term := Term.uri (u ++ "/schema")

/-- All field names occurring anywhere in a record set. -/
def recordFieldNames (data : List Rec) : List String :=
  data.flatMap (fun r => r.map Prod.fst)

/-- Modelled from the spec: scan records in original order and take the
first non-null, non-empty value the column has. -/
def firstNonEmptyValue (data : List Rec) (col : String) : Option Value :=
  (data.filterMap (fun row => pyLookup row col)).find? (fun v => !pyEmptyish v)

/-- Modelled from the spec: classify a value as `boolean` if boolean-typed,
`integer` if integer-typed or a string parseable as an integer, `decimal`
if float-typed or a string parseable as a float, else `string`. -/
def specClassify (v : Value) : String :=
  match v with
  | .vBool _ => "boolean"
  | .vInt _ => "integer"
  | .vFloat _ => "decimal"
  | .vStr s =>
      if pyIntParsable (pyStrip s.toList) then "integer"
      else if pyFloatParsable (pyStrip s.toList) then "decimal"
      else "string"
  | .vNone => "string"

/-- The spec's inference example: `[{"a": ""}, {"a": "5"}, {"a": "x"}]`. -/
def inferExample : List Rec :=
  [[("a", Value.vStr "")], [("a", Value.vStr "5")], [("a", Value.vStr "x")]]

/-! ## Plugin registry (plugin_base.py) -/

/-- `PluginBase._registry`: a Python dict from plugin name to plugin class,
as an insertion-ordered association list with unique keys. -/
abbrev Registry (α : Type) := List (String × α)

/-- Python dict assignment `d[k] = v`: overwrite in place when the key is
already present (keeping its position), else append. -/
def dictSet (d : List (String × α)) (k : String) (v : α) : List (String × α) :=
  if d.any (fun p => p.1 = k) then
    d.map (fun p => if p.1 = k then (k, v) else p)
  else d ++ [(k, v)]

/-- `PluginBase.__init_subclass__` (plugin_base.py lines 18-27): register
the subclass under `cls.get_name()` unless the class name starts with an
underscore. Registration is the dict assignment, so a reused name is
silently overwritten. -/
def initSubclass (reg : Registry α) (clsName : String) (plugName : String)
    (impl : α) : Registry α :=
  if clsName.startsWith "_" then reg else dictSet reg plugName impl

/-- `PluginBase.get_plugin` (plugin_base.py lines 52-66): dict lookup;
the KeyError (NotFound) outcome is `none`. -/
def getPlugin (reg : Registry α) (name : String) : Option α :=
  pyLookup reg name

/-- `PluginBase.list_plugins` (plugin_base.py lines 78-86). -/
def listPlugins (reg : Registry α) : List String := reg.map Prod.fst

/-! ## Plugin loader (plugin_loader.py) -/

/-- The loader's own state: the `_loaded` guard flag. -/
structure LoaderState where
  loaded : Bool
  deriving DecidableEq, Repr

/-- `PluginLoader.load_plugins` (plugin_loader.py lines 29-66). The
directory scan and module imports are I/O; they are abstracted as `modReg`,
the ordered `(name, implementation)` self-registrations the imported
modules would perform. `importOk = false` models the ImportError path:
a warning, the registry as it stands, and `_loaded` left unset. Returns
(plugin-name list, new loader state, new registry). -/
def loadPlugins (st : LoaderState) (reg : Registry α)
    (modReg : List (String × α)) (importOk : Bool) :
    List String × LoaderState × Registry α :=
  if st.loaded then (listPlugins reg, st, reg)
  else if importOk then
    let reg' := modReg.foldl (fun r p => dictSet r p.1 p.2) reg
    (listPlugins reg', { loaded := true }, reg')
  else (listPlugins reg, st, reg)

/-! ## Pipeline orchestrator (converter.py) -/

/-- The converter's cross-call state: its cached record set `self.data`
(converter.py line 26). -/
structure ConverterState where
  data : Option (List Rec)
  deriving DecidableEq, Repr

/-- What one `convert` call produces: the result (`Except.error` models the
ValueError raised on validation failure), the converter state after the
call, and the pipeline steps executed, in order. -/
structure ConvertOutcome where
  result : Except String (List Triple)
  state : ConverterState
  executed : List String
  deriving Repr

/-- The error message of a failed convert call, `none` on success. -/
def ConvertOutcome.errorMsg (o : ConvertOutcome) : Option String :=
  match o.result with
  | .error m => some m
  | .ok _ => none

/-- The generated output of a successful convert call, `none` on failure. -/
def ConvertOutcome.output (o : ConvertOutcome) : Option (List Triple) :=
  match o.result with
  | .error _ => none
  | .ok ts => some ts

/-- `CSVtoRDFConverter.convert` (converter.py lines 31-86). Reading the CSV
file is I/O done by the csv_reader step; its result — a list of dict
records, as `csv.DictReader` produces — is the `readData` parameter. The
record set is cached in `self.data` (line 53) before validation runs; on an
invalid result a ValueError carrying the joined error list is raised (lines
64-68) and the generator step never executes. -/
def convert (st : ConverterState) (readData : List Rec) (validate : Bool)
    (required_fields : List String) (allow_empty : Bool)
    (dataset_uri : String) : ConvertOutcome :=
  let st1 : ConverterState := { data := some readData }
  if validate then
    let vr := validatorExecute (.records (readData.map Row.dict))
      required_fields allow_empty
    if vr.valid = false then
      { result := .error ("Validation failed:\n" ++ String.intercalate "\n" vr.errors),
        state := st1, executed := ["csv_reader", "validator"] }
    else
      { result := .ok (rdfGeneratorExecute readData dataset_uri),
        state := st1, executed := ["csv_reader", "validator", "rdf_generator"] }
  else
    { result := .ok (rdfGeneratorExecute readData dataset_uri),
      state := st1, executed := ["csv_reader", "rdf_generator"] }

/-- The spec's end-to-end example record set:
`[{"name":"Alice","age":"30"},{"name":"Bob","age":"25"}]`. -/
def exampleRecords : List Rec :=
  [[("name", Value.vStr "Alice"), ("age", Value.vStr "30")],
   [("name", Value.vStr "Bob"), ("age", Value.vStr "25")]]

/-- A record set whose second record introduces a field name that the first
record does not have. -/
def mixedColumnsRecords : List Rec := [[("a", Value.vInt 1)], [("b", Value.vInt 2)]]

/-!
## Theorems

Helper lemmas first (loop characterizations of the validator and projection
lemmas for the generator), then one theorem per specification claim,
together with its witness or counterexample where called for.
-/

example :
    validatorExecute (.records [.dict [("a", .vStr "1")]]) ["a", "b"] true
      = { valid := false, errors := [missingMsg 0 "b"], warnings := [] } := by
  decide

example :
    inferDatatype [[("n", Value.vStr "42")]] "n" = "integer" := by decide

/-- `stepField` reports exactly the (record, field) pair's error, if any,
and clears `valid` exactly when it does. -/
theorem stepField_char (ae : Bool) (idx : Nat) (r : Rec) (res : VResult)
    (field : String) :
    stepField ae idx r res field =
      match pairError ae idx r field with
      | some e => { res with valid := false, errors := res.errors ++ [e] }
      | none => res := by
  unfold stepField pairError
  cases pyLookup r field with
  | none => rfl
  | some v => cases h : (!ae && pyFalsy v) <;> simp [h]

/-- Folding `stepField` over the required fields appends that record's
field errors and conjoins validity with their absence. -/
theorem foldl_stepField (ae : Bool) (idx : Nat) (r : Rec) (fs : List String)
    (res : VResult) :
    fs.foldl (stepField ae idx r) res =
      { valid := res.valid && (fs.filterMap (pairError ae idx r)).isEmpty,
        errors := res.errors ++ fs.filterMap (pairError ae idx r),
        warnings := res.warnings } := by
  induction fs generalizing res with
  | nil => simp
  | cons f rest ih =>
    rw [List.foldl_cons, stepField_char, List.filterMap_cons]
    cases h : pairError ae idx r f with
    | none => rw [ih]
    | some e => rw [ih]; simp

/-- `stepRow` appends exactly the row's errors (structural or field-level)
and conjoins validity with their absence. -/
theorem stepRow_char (ae : Bool) (fs : List String) (res : VResult)
    (p : Nat × Row) :
    stepRow ae fs res p =
      { valid := res.valid && (rowErrors ae fs p).isEmpty,
        errors := res.errors ++ rowErrors ae fs p,
        warnings := res.warnings } := by
  obtain ⟨idx, row⟩ := p
  cases row with
  | nonDict => simp [stepRow, rowErrors]
  | dict r => rw [show stepRow ae fs res (idx, Row.dict r)
      = fs.foldl (stepField ae idx r) res from rfl, foldl_stepField]; rfl

/-- A list append is empty iff both halves are. -/
theorem isEmpty_append_eq (l l' : List α) :
    (l ++ l').isEmpty = (l.isEmpty && l'.isEmpty) := by
  cases l <;> simp

/-- Folding `stepRow` over the positioned rows appends all rows' errors in
order and conjoins validity with their absence: no early exit. -/
theorem foldl_stepRow (ae : Bool) (fs : List String) (l : List (Nat × Row))
    (res : VResult) :
    l.foldl (stepRow ae fs) res =
      { valid := res.valid && (l.flatMap (rowErrors ae fs)).isEmpty,
        errors := res.errors ++ l.flatMap (rowErrors ae fs),
        warnings := res.warnings } := by
  induction l generalizing res with
  | nil => simp
  | cons p rest ih =>
    rw [List.foldl_cons, stepRow_char, ih, List.flatMap_cons, isEmpty_append_eq]
    simp [Bool.and_assoc]

/-- `ValidatorPlugin.execute` on a non-empty row list: the result's error
list is the concatenation, in record order, of every row's errors, its
validity is their absence, and no warnings are issued. -/
theorem validatorExecute_records_char (rows : List Row) (fs : List String)
    (ae : Bool) (h : rows ≠ []) :
    validatorExecute (.records rows) fs ae =
      { valid := (rows.enum.flatMap (rowErrors ae fs)).isEmpty,
        errors := rows.enum.flatMap (rowErrors ae fs),
        warnings := [] } := by
  have hv : validatorExecute (.records rows) fs ae =
      (if rows.length = 0 then
        { valid := true, errors := [], warnings := ["Dataset is empty"] }
      else
        rows.enum.foldl (stepRow ae fs)
          { valid := true, errors := [], warnings := [] }) := rfl
  rw [hv, if_neg (by simpa [List.length_eq_zero] using h), foldl_stepRow]
  simp

/-- C1: for every input to the validator's `execute` and every
`required_fields`/`allow_empty` options, the returned validation result has
`valid == false` if and only if its `errors` list is non-empty. -/
theorem validator_valid_iff_errors_nonempty (data : VInput)
    (F : List String) (ae : Bool) :
    (validatorExecute data F ae).valid = false
      ↔ (validatorExecute data F ae).errors ≠ [] := by
  cases data with
  | nonList => simp [validatorExecute]
  | records rows =>
    rcases eq_or_ne rows [] with rfl | h
    · simp [validatorExecute]
    · rw [validatorExecute_records_char rows F ae h]
      cases he : rows.enum.flatMap (rowErrors ae F) <;> simp [he]

/-- C2: validating a non-empty all-mapping record set against required
fields produces exactly one error per (record, missing-or-empty required
field) pair, in record order — the full error list, with no early exit. -/
theorem validator_one_error_per_pair (recs : List Rec) (F : List String)
    (ae : Bool) (h : recs ≠ []) :
    (validatorExecute (.records (recs.map Row.dict)) F ae).errors
      = specValidationErrors ae F recs := by
  have h' : recs.map Row.dict ≠ [] := by simpa [List.map_eq_nil_iff] using h
  rw [validatorExecute_records_char _ _ _ h']
  show (recs.map Row.dict).enum.flatMap (rowErrors ae F)
      = specValidationErrors ae F recs
  rw [List.enum_map, specValidationErrors]
  induction recs.enum with
  | nil => rfl
  | cons p rest ih =>
    obtain ⟨i, r⟩ := p
    simp only [List.map_cons, List.flatMap_cons, ih]
    rfl

/-- Witness for C2 at a concrete input: one record with an empty required
field, checked with `allow_empty = false`. -/
theorem validator_one_error_per_pair_witness :
    ([[("a", Value.vStr "")]] : List Rec) ≠ []
      ∧ (validatorExecute (.records (([[("a", Value.vStr "")]] : List Rec).map Row.dict))
            ["a"] false).errors
          = specValidationErrors false ["a"] [[("a", Value.vStr "")]] :=
  ⟨by decide, validator_one_error_per_pair [[("a", Value.vStr "")]] ["a"] false (by decide)⟩

/-- Counterexample to C3 as stated: a record set containing a non-mapping
record does not short-circuit to a single error — the non-dict row yields
its structural error and the later record's required-field check still
contributes another, so the error list has two entries, not one. -/
theorem validator_nondict_two_errors :
    (validatorExecute (.records [Row.nonDict, Row.dict []]) ["a"] true).errors
        = [notDictMsg 0, missingMsg 1 "a"]
      ∧ ((validatorExecute (.records [Row.nonDict, Row.dict []]) ["a"] true).errors).length
          ≠ 1 := by
  decide

/-- C3 as amended: a validator input that is not record-set-shaped
short-circuits with the single structural error, no warnings and no other
checks; a record that is not mapping-shaped instead contributes exactly one
error naming its position and skips only its own field checks — the
remaining records are still validated, their errors collected in order. -/
theorem validator_structural_errors (F : List String) (ae : Bool)
    (rows : List Row) (h : rows ≠ []) :
    validatorExecute .nonList F ae
        = { valid := false, errors := [notListMsg], warnings := [] }
      ∧ (validatorExecute (.records rows) F ae).errors
          = rows.enum.flatMap (rowErrors ae F) := by
  refine ⟨rfl, ?_⟩
  rw [validatorExecute_records_char rows F ae h]

/-- Witness for C3's amended theorem: a non-dict row followed by a dict row
missing its required field. -/
theorem validator_structural_errors_witness :
    ([Row.nonDict, Row.dict []] : List Row) ≠ []
      ∧ (validatorExecute .nonList ["a"] true
            = { valid := false, errors := [notListMsg], warnings := [] }
          ∧ (validatorExecute (.records [Row.nonDict, Row.dict []]) ["a"] true).errors
              = ([Row.nonDict, Row.dict []] : List Row).enum.flatMap (rowErrors true ["a"])) :=
  ⟨by decide, validator_structural_errors ["a"] true [Row.nonDict, Row.dict []] (by decide)⟩

/-- C6: validating an empty record set yields `valid == true` with exactly
one warning and zero errors, for every choice of options. -/
theorem validator_empty_dataset (F : List String) (ae : Bool) :
    validatorExecute (.records []) F ae
      = { valid := true, errors := [], warnings := ["Dataset is empty"] } := rfl

/-- The code's classification chain agrees with the spec's wording case by
case. -/
theorem classifyValue_eq_specClassify (v : Value) :
    classifyValue v = specClassify v := by
  cases v <;> rfl

/-- Unfolding `firstNonEmptyValue` over the leading record. -/
theorem firstNonEmptyValue_cons (row : Rec) (rest : List Rec) (col : String) :
    firstNonEmptyValue (row :: rest) col =
      match pyLookup row col with
      | none => firstNonEmptyValue rest col
      | some v =>
          if pyEmptyish v then firstNonEmptyValue rest col else some v := by
  unfold firstNonEmptyValue
  rw [List.filterMap_cons]
  cases h : pyLookup row col with
  | none => rfl
  | some v =>
    cases hv : pyEmptyish v
    · rw [List.find?_cons_of_pos _ (by simp [hv])]
      simp [hv]
    · rw [List.find?_cons_of_neg _ (by simp [hv])]
      simp [hv]

/-- C5: datatype inference is deterministic and depends only on the first
non-null, non-empty value found scanning records in original order —
classified as the spec describes, defaulting to `string` when no record
supplies a non-empty value — and the spec's example record set infers
column `a` as `integer`. -/
theorem infer_datatype_first_nonempty_wins :
    (∀ (data : List Rec) (col : String),
      inferDatatype data col =
        (match firstNonEmptyValue data col with
         | some v => specClassify v
         | none => "string"))
      ∧ inferDatatype inferExample "a" = "integer" := by
  refine ⟨fun data col => ?_, by decide⟩
  induction data with
  | nil => rfl
  | cons row rest ih =>
    rw [firstNonEmptyValue_cons, inferDatatype]
    cases h : pyLookup row col with
    | none => exact ih
    | some v =>
      cases hv : pyEmptyish v
      · simp only [hv, if_neg Bool.false_ne_true]
        exact classifyValue_eq_specClassify v
      · simp only [hv, if_pos rfl]
        exact ih

/-- `columnNameLits` distributes over append. -/
theorem columnNameLits_append (a b : List Triple) :
    columnNameLits (a ++ b) = columnNameLits a ++ columnNameLits b :=
  List.filterMap_append a b _

/-- The dataset-metadata triples carry no `csvw:name` literal. -/
theorem columnNameLits_metadata (u : String) (data : List Rec) :
    columnNameLits (addDatasetMetadata u data) = [] := by
  simp only [addDatasetMetadata]
  by_cases h : data.length > 0
  · rw [if_pos h]; rfl
  · rw [if_neg h]; rfl

/-- The schema-to-column link triples carry no `csvw:name` literal. -/
theorem columnNameLits_links (u : String) (su : Term) (l : List Nat) :
    columnNameLits (l.map (fun idx => (su, csvw "column", colUri u idx))) = [] := by
  induction l with
  | nil => rfl
  | cons i rest ih =>
    rw [List.map_cons]
    rw [show columnNameLits ((su, csvw "column", colUri u i)
          :: rest.map (fun idx => (su, csvw "column", colUri u idx)))
        = columnNameLits (rest.map (fun idx => (su, csvw "column", colUri u idx)))
      from rfl]
    exact ih

/-- The schema-type triple and the link triples together carry no
`csvw:name` literal. -/
theorem columnNameLits_headlinks (u : String) (su : Term) (n : Nat) :
    columnNameLits ((su, rdfType, csvw "TableSchema")
      :: (List.range n).map (fun idx => (su, csvw "column", colUri u idx))) = [] := by
  rw [show columnNameLits ((su, rdfType, csvw "TableSchema")
        :: (List.range n).map (fun idx => (su, csvw "column", colUri u idx)))
      = columnNameLits ((List.range n).map (fun idx => (su, csvw "column", colUri u idx)))
    from rfl]
  exact columnNameLits_links u su (List.range n)

/-- Each column-definition block asserts exactly one `csvw:name` literal:
its own column's name. -/
theorem columnNameLits_colDefs (u : String) (data : List Rec)
    (l : List (Nat × String)) :
    columnNameLits (l.flatMap (fun p =>
      [(colUri u p.1, rdfType, csvw "Column"),
       (colUri u p.1, csvw "name", Term.litStr p.2),
       (colUri u p.1, csvw "title", Term.litStr p.2),
       (colUri u p.1, rdfsLabel, Term.litStr p.2),
       (colUri u p.1, csvw "datatype", Term.litStr (inferDatatype data p.2))]))
      = l.map Prod.snd := by
  induction l with
  | nil => rfl
  | cons p rest ih =>
    rw [List.flatMap_cons, columnNameLits_append, ih]
    rw [show columnNameLits
          [(colUri u p.1, rdfType, csvw "Column"),
           (colUri u p.1, csvw "name", Term.litStr p.2),
           (colUri u p.1, csvw "title", Term.litStr p.2),
           (colUri u p.1, rdfsLabel, Term.litStr p.2),
           (colUri u p.1, csvw "datatype", Term.litStr (inferDatatype data p.2))]
        = [p.2] from rfl]
    rfl

/-- The ordered `csvw:name` literals of the table schema are exactly the
first record's keys. -/
theorem columnNameLits_schema (u : String) (data : List Rec) :
    columnNameLits (addTableSchema u data) = (data.headD []).map Prod.fst := by
  simp only [addTableSchema]
  rw [columnNameLits_append, columnNameLits_headlinks,
    columnNameLits_colDefs u data]
  rw [List.nil_append, List.enum_map_snd]

/-- Counterexample to C4 as stated: on a record set where the second record
introduces a field name the first record lacks, the schema has no column
for that field — the emitted `csvw:name` literals are exactly the first
record's keys, not one per distinct field name of the whole record set. -/
theorem rdf_schema_misses_later_fields :
    "b" ∈ recordFieldNames mixedColumnsRecords
      ∧ columnNameLits (rdfGeneratorExecute mixedColumnsRecords "http://x/d") = ["a"]
      ∧ "b" ∉ columnNameLits (rdfGeneratorExecute mixedColumnsRecords "http://x/d") := by
  decide

/-- C4 as amended: for every non-empty mapping-shaped record set, the
generator emits one schema resource and one column resource per field name
of the FIRST record, columns ordered as in the first record, each column
linked from the schema and carrying its name, title, label and inferred
datatype. -/
theorem rdf_schema_columns_from_first_record (u : String) (first : Rec)
    (rest : List Rec) :
    columnNameLits (rdfGeneratorExecute (first :: rest) u) = first.map Prod.fst
      ∧ (schemaUriOf u, rdfType, csvw "TableSchema")
          ∈ rdfGeneratorExecute (first :: rest) u
      ∧ ∀ idx field, (idx, field) ∈ (first.map Prod.fst).enum →
          ((schemaUriOf u, csvw "column", colUri u idx)
              ∈ rdfGeneratorExecute (first :: rest) u
            ∧ (colUri u idx, rdfType, csvw "Column")
                ∈ rdfGeneratorExecute (first :: rest) u
            ∧ (colUri u idx, csvw "name", Term.litStr field)
                ∈ rdfGeneratorExecute (first :: rest) u
            ∧ (colUri u idx, csvw "title", Term.litStr field)
                ∈ rdfGeneratorExecute (first :: rest) u
            ∧ (colUri u idx, rdfsLabel, Term.litStr field)
                ∈ rdfGeneratorExecute (first :: rest) u
            ∧ (colUri u idx, csvw "datatype",
                Term.litStr (inferDatatype (first :: rest) field))
                ∈ rdfGeneratorExecute (first :: rest) u) := by
  have hexec : rdfGeneratorExecute (first :: rest) u
      = addDatasetMetadata u (first :: rest) ++ addTableSchema u (first :: rest) := by
    unfold rdfGeneratorExecute
    rw [if_pos (by simp)]
  have hschema : addTableSchema u (first :: rest)
      = (Term.uri (u ++ "/schema"), rdfType, csvw "TableSchema")
          :: (List.range (first.map Prod.fst).length).map
              (fun idx => (Term.uri (u ++ "/schema"), csvw "column", colUri u idx))
        ++ (first.map Prod.fst).enum.flatMap (fun p =>
            [(colUri u p.1, rdfType, csvw "Column"),
             (colUri u p.1, csvw "name", Term.litStr p.2),
             (colUri u p.1, csvw "title", Term.litStr p.2),
             (colUri u p.1, rdfsLabel, Term.litStr p.2),
             (colUri u p.1, csvw "datatype",
               Term.litStr (inferDatatype (first :: rest) p.2))]) := rfl
  refine ⟨?_, ?_, ?_⟩
  · rw [hexec, columnNameLits_append, columnNameLits_metadata,
      columnNameLits_schema, List.nil_append]
    rfl
  · rw [hexec]
    refine List.mem_append_right _ ?_
    rw [hschema]
    exact List.mem_append_left _ (List.mem_cons_self _ _)
  · intro idx field hm
    have hlt : idx < (first.map Prod.fst).length := by
      rcases List.getElem?_eq_some.mp (List.mk_mem_enum_iff_getElem?.mp hm) with ⟨h, _⟩
      exact h
    have hdefs : ∀ t : Triple,
        t ∈ [(colUri u idx, rdfType, csvw "Column"),
             (colUri u idx, csvw "name", Term.litStr field),
             (colUri u idx, csvw "title", Term.litStr field),
             (colUri u idx, rdfsLabel, Term.litStr field),
             (colUri u idx, csvw "datatype",
               Term.litStr (inferDatatype (first :: rest) field))] →
        t ∈ rdfGeneratorExecute (first :: rest) u := by
      intro t ht
      rw [hexec]
      refine List.mem_append_right _ ?_
      rw [hschema]
      refine List.mem_append_right _ ?_
      exact List.mem_flatMap.mpr ⟨(idx, field), hm, ht⟩
    refine ⟨?_, ?_, ?_, ?_, ?_, ?_⟩
    · rw [hexec]
      refine List.mem_append_right _ ?_
      rw [hschema]
      refine List.mem_append_left _ ?_
      exact List.mem_cons_of_mem _
        (List.mem_map.mpr ⟨idx, List.mem_range.mpr hlt, rfl⟩)
    · exact hdefs _ (by simp)
    · exact hdefs _ (by simp)
    · exact hdefs _ (by simp)
    · exact hdefs _ (by simp)
    · exact hdefs _ (by simp)

/-- Witness for C4's amended theorem on a one-record, one-column input. -/
theorem rdf_schema_columns_from_first_record_witness :
    ((0, "a") ∈ (([("a", Value.vInt 1)] : Rec).map Prod.fst).enum)
      ∧ (colUri "http://x/d" 0, csvw "name", Term.litStr "a")
          ∈ rdfGeneratorExecute [[("a", Value.vInt 1)]] "http://x/d" :=
  ⟨by decide,
   (((rdf_schema_columns_from_first_record "http://x/d" [("a", Value.vInt 1)] []).2.2)
      0 "a" (by decide)).2.2.1⟩

/-- Looking a key up after a dict assignment with that key yields the
assigned value, whether the key was present (in-place overwrite) or not
(append). -/
theorem pyLookup_overwrite {α : Type} (reg : List (String × α)) (k : String)
    (v : α) (h : reg.any (fun p => p.1 = k) = true) :
    pyLookup (reg.map (fun p => if p.1 = k then (k, v) else p)) k = some v := by
  induction reg with
  | nil => simp at h
  | cons q rest ih =>
    obtain ⟨k', v'⟩ := q
    rw [List.map_cons]
    by_cases hk : k' = k
    · rw [show (if (k', v').1 = k then (k, v) else (k', v')) = (k, v) from if_pos hk]
      show (if k = k then some v
        else pyLookup (rest.map (fun p => if p.1 = k then (k, v) else p)) k) = some v
      rw [if_pos rfl]
    · rw [show (if (k', v').1 = k then (k, v) else (k', v')) = (k', v') from if_neg hk]
      show (if k' = k then some v'
        else pyLookup (rest.map (fun p => if p.1 = k then (k, v) else p)) k) = some v
      rw [if_neg hk]
      apply ih
      simpa [List.any_cons, hk] using h

/-- Appending a fresh key-value pair makes it findable. -/
theorem pyLookup_append_self {α : Type} (reg : List (String × α)) (k : String)
    (v : α) (h : reg.any (fun p => p.1 = k) = false) :
    pyLookup (reg ++ [(k, v)]) k = some v := by
  induction reg with
  | nil =>
    show (if k = k then some v else pyLookup [] k) = some v
    rw [if_pos rfl]
  | cons q rest ih =>
    obtain ⟨k', v'⟩ := q
    rw [List.cons_append]
    show (if k' = k then some v' else pyLookup (rest ++ [(k, v)]) k) = some v
    simp only [List.any_cons, Bool.or_eq_false_iff, decide_eq_false_iff_not] at h
    rw [if_neg h.1]
    exact ih h.2

/-- A dict assignment always makes its key look up to its value. -/
theorem getPlugin_dictSet_self {α : Type} (reg : Registry α) (k : String)
    (v : α) : getPlugin (dictSet reg k v) k = some v := by
  unfold getPlugin dictSet
  by_cases h : reg.any (fun p => p.1 = k) = true
  · rw [if_pos h]
    exact pyLookup_overwrite reg k v h
  · rw [if_neg h]
    refine pyLookup_append_self reg k v ?_
    simp only [Bool.not_eq_true] at h
    exact h

/-- Looking up a name not among the registered names fails (KeyError). -/
theorem getPlugin_not_mem {α : Type} (reg : Registry α) (k : String)
    (h : k ∉ listPlugins reg) : getPlugin reg k = none := by
  induction reg with
  | nil => rfl
  | cons q rest ih =>
    obtain ⟨k', v'⟩ := q
    show (if k' = k then some v' else pyLookup rest k) = none
    simp only [listPlugins, List.map_cons, List.mem_cons, not_or] at h
    rw [if_neg (fun he => h.1 he.symm)]
    exact ih h.2

/-- C7: registering implementation A then implementation B under the same
name leaves a registry in which looking the name up returns B — silent
last-write-wins replacement — while looking up a name that was never
registered fails with NotFound (KeyError, modelled as `none`). -/
theorem registry_last_write_wins (α : Type) (reg : Registry α) (name : String)
    (A B : α) (missing : String) (h : missing ∉ listPlugins reg) :
    getPlugin (dictSet (dictSet reg name A) name B) name = some B
      ∧ getPlugin reg missing = none :=
  ⟨getPlugin_dictSet_self _ _ _, getPlugin_not_mem _ _ h⟩

/-- Witness for C7 on a concrete registry: re-registering `validator`
returns the second implementation; `validator` is absent from the original
registry, so its lookup there fails. -/
theorem registry_last_write_wins_witness :
    ("validator" ∉ listPlugins ([("csv_reader", "R")] : Registry String))
      ∧ (getPlugin (dictSet (dictSet ([("csv_reader", "R")] : Registry String)
            "validator" "V1") "validator" "V2") "validator" = some "V2"
          ∧ getPlugin ([("csv_reader", "R")] : Registry String) "validator" = none) :=
  ⟨by decide,
   registry_last_write_wins String [("csv_reader", "R")] "validator" "V1" "V2"
     "validator" (by decide)⟩

/-- C8: a successful first `load_plugins` call sets the loaded flag, and
every call on a loader whose flag is set is a cache hit: it returns the
current registry's names and leaves both the loader state and the registry
unchanged, performing no rescan. -/
theorem loader_load_idempotent (α : Type) :
    (∀ (reg : Registry α) (m : List (String × α)),
      (loadPlugins (⟨false⟩ : LoaderState) reg m true).2.1 = ⟨true⟩)
      ∧ (∀ (st : LoaderState) (reg : Registry α) (m : List (String × α))
          (ok : Bool), st.loaded = true →
          loadPlugins st reg m ok = (listPlugins reg, st, reg)) := by
  refine ⟨fun reg m => rfl, fun st reg m ok h => ?_⟩
  obtain ⟨b⟩ := st
  cases h
  rfl

/-- Witness for C8: a loaded loader's call is the identity on a concrete
registry. -/
theorem loader_load_idempotent_witness :
    (({ loaded := true } : LoaderState).loaded = true)
      ∧ loadPlugins ({ loaded := true } : LoaderState)
          ([("csv_reader", "R")] : Registry String) [("validator", "V")] true
        = (listPlugins ([("csv_reader", "R")] : Registry String),
           { loaded := true }, [("csv_reader", "R")]) :=
  ⟨rfl, (loader_load_idempotent String).2 _ _ _ _ rfl⟩

/-- C9: when validation is enabled and the validator reports invalid,
`convert` fails with the ValidationFailed error carrying the full joined
error list, the generator step never executes, and no generated output is
produced. -/
theorem convert_fails_on_invalid (st : ConverterState) (rd : List Rec)
    (F : List String) (ae : Bool) (u : String)
    (h : (validatorExecute (.records (rd.map Row.dict)) F ae).valid = false) :
    convert st rd true F ae u
        = { result := .error ("Validation failed:\n" ++ String.intercalate "\n"
              (validatorExecute (.records (rd.map Row.dict)) F ae).errors),
            state := { data := some rd },
            executed := ["csv_reader", "validator"] }
      ∧ (convert st rd true F ae u).output = none := by
  have h1 : convert st rd true F ae u
      = { result := .error ("Validation failed:\n" ++ String.intercalate "\n"
            (validatorExecute (.records (rd.map Row.dict)) F ae).errors),
          state := { data := some rd },
          executed := ["csv_reader", "validator"] } := by
    simp only [convert, if_true]
    rw [if_pos h]
  exact ⟨h1, by rw [h1]; rfl⟩

/-- Witness for C9: the spec's two example records validated against
`required_fields = ["missing_field"]` make `convert` fail with a message
listing two errors, one per record. -/
theorem convert_fails_on_invalid_witness :
    ((validatorExecute (.records (exampleRecords.map Row.dict))
        ["missing_field"] true).valid = false)
      ∧ (convert { data := none } exampleRecords true ["missing_field"] true
            "http://x/d").errorMsg
          = some ("Validation failed:\nRow 0 missing required field: missing_field\nRow 1 missing required field: missing_field") := by
  refine ⟨by decide, ?_⟩
  rw [(convert_fails_on_invalid { data := none } exampleRecords
    ["missing_field"] true "http://x/d" (by decide)).1]
  decide

/-- C10: `convert` is not atomic with respect to the cached record set —
the freshly read records are stored before validation, so in every branch
(including a failed validation) the cache afterwards holds the newly read
records, not its previous value. -/
theorem convert_caches_before_validation :
    (∀ (st : ConverterState) (rd : List Rec) (v : Bool) (F : List String)
      (ae : Bool) (u : String), (convert st rd v F ae u).state.data = some rd)
      ∧ ((convert { data := some [[("x", Value.vStr "1")]] }
            [[("y", Value.vStr "2")]] true ["missing_field"] true "u").errorMsg
          ≠ none
          ∧ (convert { data := some [[("x", Value.vStr "1")]] }
              [[("y", Value.vStr "2")]] true ["missing_field"] true "u").state.data
            = some [[("y", Value.vStr "2")]]
          ∧ (some [[("y", Value.vStr "2")]] : Option (List Rec))
            ≠ some [[("x", Value.vStr "1")]]) := by
  refine ⟨fun st rd v F ae u => ?_, by decide, by decide, by decide⟩
  simp only [convert]
  split
  · split <;> rfl
  · rfl

/-- Witness for C10 at a concrete input: a fresh read is cached. -/
theorem convert_caches_before_validation_witness :
    (convert { data := none } [[("a", Value.vStr "1")]] true [] true "u").state.data
      = some [[("a", Value.vStr "1")]] :=
  convert_caches_before_validation.1 _ _ _ _ _ _

end HealthDCAT
